import Mathlib

/-!
# Verification of the Azadi DNS tester core (src/AzadiDNSTester.py)

Shallow embedding of the probe engine: `test_single_server` (the Prober,
lines 180-231), the inline firewall classification (lines 197-204), the
`socket.inet_aton` address validation (lines 182-185), `real_time_save`
(the ResultSink append, lines 94-103), the result-collection loop of
`check_dns_servers` (lines 266-282) and its top-5 aggregation
(lines 296-300).

Network behaviour is abstracted as a `DnsResponse` value describing what
`resolver.resolve(domain, 'A')` did on this call (answer list, or which
exception it raised), and elapsed wall time is an explicit rational
parameter `t` standing for `(time.time() - start_time) * 1000`.
-/

/-- The fixed sentinel set, line 197:
`firewall_ips = {'10.10.34.34', '10.10.34.35', '10.10.34.36'}`. -/
def firewallIps : List String := ["10.10.34.34", "10.10.34.35", "10.10.34.36"]

/-- Line 199: `firewall_found = any(ip in firewall_ips for ip in returned_ips)`. -/
def firewallFound (returnedIps : List String) : Bool :=
  returnedIps.any (fun ip => firewallIps.contains ip)

/-- Line 204: `first_fw = next(ip for ip in returned_ips if ip in firewall_ips)` —
the first returned address, in resolver order, belonging to the sentinel set
(`none` when no address matches). -/
def firstFirewall (returnedIps : List String) : Option String :=
  returnedIps.find? (fun ip => firewallIps.contains ip)

/-- What `resolver.resolve(domain, 'A')` did on this call: either it returned
an answer object whose string forms are `ips` (line 198), or it raised one of
the exceptions handled at lines 217-231. `otherError` covers the blanket
`except Exception` for transport/unexpected failures. -/
inductive DnsResponse where
  | answers (ips : List String)
  | nxdomain
  | timeout
  | noAnswer
  | dnsError
  | otherError
  deriving DecidableEq, Repr

/-- Which return site of `test_single_server` produced the result.
`error` is the blanket handler at lines 229-231 (reached by the
`except Exception` branch, and also by internal faults of the `try` body:
the `answers[0]` IndexError on an empty answer list, and the
`first_fw` UnboundLocalError at line 213).  `okSuccess` is the
`"{server} ok"` return at line 215. -/
inductive Outcome where
  | invalidIp
  | okSuccess (firstIp : String)
  | firewallIncluded (fw : String)
  | firewallFiltered (fw : String)
  | nxdomain
  | timeoutHit
  | noAnswer
  | dnsError
  | error
  deriving DecidableEq, Repr

/-- One line appended to `working_dns.txt`: server address, optional firewall
tag, latency in ms (the string rendering at lines 207/213 is abstracted to its
fields). -/
structure ResultRecord where
  server : String
  firewallTag : Option String
  ms : ℚ
  deriving DecidableEq, Repr

/-- The observable effect of one `test_single_server` call: the returned
triple `(success, (server, response_time), message)` — with the message
abstracted to the `outcome` tag of the return site — plus the records it
passed to `real_time_save` and whether `resolver.resolve` was reached. -/
structure ProbeRun where
  success : Bool
  server : String
  latency : Option ℚ
  outcome : Outcome
  records : List ResultRecord
  queried : Bool
  deriving DecidableEq, Repr

/-- Split a character list at every `'.'` (the behaviour of Python's
`s.split('.')`, written with structural recursion so that concrete inputs
evaluate). -/
def splitOnDot : List Char → List (List Char)
  | [] => [[]]
  | c :: rest =>
    if c = '.' then [] :: splitOnDot rest
    else
      match splitOnDot rest with
      | [] => [[c]]
      | p :: ps => (c :: p) :: ps

/-- One C-style numeric part as `inet_aton` parses it: `0x`/`0X` prefix means
hexadecimal, a leading `0` means octal, otherwise decimal; at least one digit
is required. -/
def parseCPart (s : List Char) : Option Nat :=
  let digits (base : Nat) (valid : Char → Bool) (val : Char → Nat)
      (cs : List Char) : Option Nat :=
    if cs.isEmpty then none
    else if cs.all valid then some (cs.foldl (fun a c => a * base + val c) 0)
    else none
  match s with
  | '0' :: 'x' :: rest =>
      digits 16 (fun c => c.isDigit || ('a' ≤ c && c ≤ 'f') || ('A' ≤ c && c ≤ 'F'))
        (fun c => if c.isDigit then c.toNat - 48
                  else if 'a' ≤ c then c.toNat - 87 else c.toNat - 55) rest
  | '0' :: 'X' :: rest =>
      digits 16 (fun c => c.isDigit || ('a' ≤ c && c ≤ 'f') || ('A' ≤ c && c ≤ 'F'))
        (fun c => if c.isDigit then c.toNat - 48
                  else if 'a' ≤ c then c.toNat - 87 else c.toNat - 55) rest
  | '0' :: rest =>
      if rest.isEmpty then some 0
      else digits 8 (fun c => '0' ≤ c && c ≤ '7') (fun c => c.toNat - 48) rest
  | cs => digits 10 (fun c => c.isDigit) (fun c => c.toNat - 48) cs

/-- `socket.inet_aton(server)` succeeds (line 183): the classic `inet_aton(3)`
grammar — one to four dot-separated C-style numeric parts with the usual
range checks (`a`, `a.b`, `a.b.c`, `a.b.c.d`).  Note this accepts strictly
more than dotted-quads: e.g. `"127.1"` is accepted. -/
def inetAtonOk (s : String) : Bool :=
  match (splitOnDot s.toList).mapM parseCPart with
  | none => false
  | some vals =>
    match vals with
    | [a] => a < 4294967296
    | [a, b] => a < 256 && b < 16777216
    | [a, b, c] => a < 256 && b < 256 && c < 65536
    | [a, b, c, d] => a < 256 && b < 256 && c < 256 && d < 256
    | _ => false

/-- Written from the SPEC's words, for comparison with `inetAtonOk`
("a validated IPv4 address string. Invariant: well-formed dotted-quad"):
exactly four dot-separated decimal parts, each a digit string without a
redundant leading zero, each at most 255. -/
def specDottedQuad (s : String) : Bool :=
  let parts := splitOnDot s.toList
  parts.length == 4 &&
    parts.all (fun cs =>
      !cs.isEmpty && cs.all (fun c => c.isDigit) &&
        (cs.length == 1 || cs.head? != some '0') &&
        decide (cs.foldl (fun a c => a * 10 + (c.toNat - 48)) 0 ≤ 255))

/-- `test_single_server(server, domain, timeout, include_firewall)`
(lines 180-231), with the resolver's behaviour `resp` and the measured
elapsed milliseconds `t` made explicit.

Path notes, traced from the source:
* lines 182-185: `socket.inet_aton` failure returns
  `(False, (server, None), "... invalid ip")` with no network call;
* line 201: on an empty answer list `answers[0]` raises IndexError,
  caught by `except Exception` (line 229) → generic error return;
* line 213 (no firewall match): the f-string reads `first_fw`, which is
  assigned only inside the `if firewall_found:` branch (line 204), so the
  interpreter raises UnboundLocalError before `real_time_save` runs,
  caught by `except Exception` (line 229) → generic error return; the
  `"{server} ok"` return at line 215 is unreachable;
* the `timeout` argument only configures the resolver, which is abstracted
  into `resp` here. -/
def test_single_server (server _domain : String) (_timeout : ℚ)
    (include_firewall : Bool) (resp : DnsResponse) (t : ℚ) : ProbeRun :=
  if !inetAtonOk server then
    { success := false, server := server, latency := none,
      outcome := .invalidIp, records := [], queried := false }
  else
    match resp with
    | .answers ips =>
      let found := firewallFound ips
      match ips with
      | [] =>
        { success := false, server := server, latency := some t,
          outcome := .error, records := [], queried := true }
      | _firstIp :: _ =>
        if found then
          let firstFw := (firstFirewall ips).getD ""
          if include_firewall then
            { success := true, server := server, latency := some t,
              outcome := .firewallIncluded firstFw,
              records := [{ server := server, firewallTag := some firstFw,
                            ms := t }],
              queried := true }
          else
            { success := false, server := server, latency := some t,
              outcome := .firewallFiltered firstFw, records := [],
              queried := true }
        else
          { success := false, server := server, latency := some t,
            outcome := .error, records := [], queried := true }
    | .nxdomain =>
        { success := false, server := server, latency := some t,
          outcome := .nxdomain, records := [], queried := true }
    | .timeout =>
        { success := false, server := server, latency := some t,
          outcome := .timeoutHit, records := [], queried := true }
    | .noAnswer =>
        { success := false, server := server, latency := some t,
          outcome := .noAnswer, records := [], queried := true }
    | .dnsError =>
        { success := false, server := server, latency := some t,
          outcome := .dnsError, records := [], queried := true }
    | .otherError =>
        { success := false, server := server, latency := some t,
          outcome := .error, records := [], queried := true }

/-- `real_time_save(server_info)` (lines 94-103): appends one record to the
store; any write exception is caught inside the function and printed
(`fails = true` models the open/write raising), so the function always
returns normally — on failure the store is simply left unchanged. -/
def real_time_save (fails : Bool) (store : List ResultRecord)
    (r : ResultRecord) : List ResultRecord :=
  if fails then store else store ++ [r]

/-- The store contents after a probe's emitted records pass through
`real_time_save`. -/
def runStore (fails : Bool) (store : List ResultRecord)
    (rs : List ResultRecord) : List ResultRecord :=
  rs.foldl (real_time_save fails) store

/-- What `future.result()` did for one completed task (lines 267-280):
returned the prober's triple (with the message dropped), or raised. -/
inductive TaskResult where
  | ok (success : Bool) (result : String × Option ℚ)
  | crash
  deriving DecidableEq, Repr

/-- The completion event of a prober task for server `s`: `as_completed`
hands the engine `future.result()` for the future keyed by `s`. -/
def probeEvent (s domain : String) (timeout : ℚ) (include_firewall : Bool)
    (resp : DnsResponse) (t : ℚ) : String × TaskResult :=
  let r := test_single_server s domain timeout include_firewall resp t
  (s, .ok r.success (r.server, r.latency))

/-- The collection loop of `check_dns_servers` (lines 266-282): for each
completion event, a successful result is appended to `working`, a failed
result appends its `server_ip` to `failed`, and a crashed future appends
the future's dictionary key to `failed`. -/
def collectStep (acc : List (String × Option ℚ) × List String)
    (ev : String × TaskResult) : List (String × Option ℚ) × List String :=
  match ev.2 with
  | .ok true r => (acc.1 ++ [r], acc.2)
  | .ok false r => (acc.1, acc.2 ++ [r.1])
  | .crash => (acc.1, acc.2 ++ [ev.1])

/-- The whole collection loop: fold `collectStep` over the completion events,
starting from the empty `working`/`failed` lists of lines 256-257. -/
def collectResults (events : List (String × TaskResult)) :
    List (String × Option ℚ) × List String :=
  events.foldl collectStep ([], [])

/-- Comparison used by `sorted(working, key=lambda x: x[1])` (line 298),
on the latency component.  In every `working` entry the latency is present
(`test_single_server` only returns `success = True` together with a measured
`response_time`); `getD 0` totalises the comparison the way Python's `sorted`
never has to. -/
def latencyLE (a b : String × Option ℚ) : Bool :=
  decide (a.2.getD 0 ≤ b.2.getD 0)

/-- Lines 296-300: `sorted_working = sorted(working, key=lambda x: x[1])`
(Python's sort is stable, modelled by `mergeSort`) followed by
`sorted_working[:5]`. -/
def topFive (working : List (String × Option ℚ)) : List (String × Option ℚ) :=
  (working.mergeSort latencyLE).take 5

/-! ## Helper lemmas -/

theorem collectResults_foldl_length (events : List (String × TaskResult))
    (acc : List (String × Option ℚ) × List String) :
    (events.foldl collectStep acc).1.length +
      (events.foldl collectStep acc).2.length =
    acc.1.length + acc.2.length + events.length := by
  induction events generalizing acc with
  | nil => simp
  | cons ev rest ih =>
    simp only [List.foldl_cons]
    rw [ih]
    rcases ev with ⟨s, tr⟩
    rcases tr with ⟨b, r⟩ | _
    · cases b <;> simp [collectStep] <;> omega
    · simp [collectStep]; omega

theorem latencyLE_trans (a b c : String × Option ℚ) :
    latencyLE a b → latencyLE b c → latencyLE a c := by
  simp only [latencyLE, decide_eq_true_eq]
  exact le_trans

theorem latencyLE_total (a b : String × Option ℚ) :
    latencyLE a b || latencyLE b a := by
  simp only [latencyLE, Bool.or_eq_true, decide_eq_true_eq]
  exact le_total _ _

/-! ## Claims -/

/-- **C2.** For every input `(address, domain, timeoutSeconds,
includeFirewallResponses)` and every behaviour of the resolver, the Prober
returns exactly one outcome — `test_single_server` is a total function, so
no network or protocol failure escapes its boundary — and each failure
behaviour (timeout, non-existent domain, empty answer set, other DNS error,
unexpected transport failure) yields a failure variant
(`success = false`), never a positive one. -/
theorem C2_prober_total_and_failures_converted (server domain : String)
    (timeout t : ℚ) (io : Bool) (resp : DnsResponse) :
    (∃! r : ProbeRun, test_single_server server domain timeout io resp t = r) ∧
    (test_single_server server domain timeout io .nxdomain t).success = false ∧
    (test_single_server server domain timeout io .timeout t).success = false ∧
    (test_single_server server domain timeout io .noAnswer t).success = false ∧
    (test_single_server server domain timeout io .dnsError t).success = false ∧
    (test_single_server server domain timeout io .otherError t).success = false ∧
    (test_single_server server domain timeout io (.answers []) t).success = false := by
  refine ⟨⟨test_single_server server domain timeout io resp t, rfl,
    fun y h => h.symm⟩, ?_, ?_, ?_, ?_, ?_, ?_⟩ <;>
    cases h : inetAtonOk server <;> simp [test_single_server, h]

/-- **C7.** Every probe outcome carries a latency that is non-negative
whenever present, and the latency is absent exactly on the `InvalidAddress`
variant: every other variant, every failure variant included, carries the
measured elapsed time. -/
theorem C7_latency_present_iff_not_invalid (server domain : String)
    (timeout : ℚ) (io : Bool) (resp : DnsResponse) (t : ℚ) (ht : 0 ≤ t) :
    ((test_single_server server domain timeout io resp t).latency = none ↔
      (test_single_server server domain timeout io resp t).outcome = .invalidIp) ∧
    ∀ l, (test_single_server server domain timeout io resp t).latency = some l →
      0 ≤ l := by
  cases h : inetAtonOk server with
  | false =>
    simp [test_single_server, h]
  | true =>
    cases resp with
    | answers ips =>
      cases ips with
      | nil => simp [test_single_server, h]; exact ht
      | cons a rest =>
        by_cases hfw : firewallFound (a :: rest) = true
        · cases io <;> simp [test_single_server, h, hfw] <;> exact ht
        · simp [test_single_server, h, hfw]; exact ht
    | nxdomain => simp [test_single_server, h]; exact ht
    | timeout => simp [test_single_server, h]; exact ht
    | noAnswer => simp [test_single_server, h]; exact ht
    | dnsError => simp [test_single_server, h]; exact ht
    | otherError => simp [test_single_server, h]; exact ht

/-- **C7 witness**: the theorem applied at a concrete probe. -/
theorem C7_witness :
    ((test_single_server "1.1.1.1" "example.com" 3 false .timeout 7).latency = none ↔
      (test_single_server "1.1.1.1" "example.com" 3 false .timeout 7).outcome = .invalidIp) ∧
    ∀ l, (test_single_server "1.1.1.1" "example.com" 3 false .timeout 7).latency = some l →
      0 ≤ l :=
  C7_latency_present_iff_not_invalid "1.1.1.1" "example.com" 3 false .timeout 7
    (by decide)

/-- **C8.** Firewall classification is a pure, deterministic function of the
returned answer list (`firstFirewall`, the embedding of lines 199/204): it
reports no match exactly when the answer set does not intersect the sentinel
set, and when it reports a match `s`, `s` is a sentinel and is the first
returned address, in resolver order, belonging to the sentinel set — every
address before it is a non-sentinel.  Determinism is definitional: the
classifier depends on nothing but its argument. -/
theorem C8_classifier_first_match (ips : List String) :
    (firstFirewall ips = none ↔ ∀ ip ∈ ips, firewallIps.contains ip = false) ∧
    ∀ s, firstFirewall ips = some s →
      firewallIps.contains s = true ∧
      ∃ pre post, ips = pre ++ s :: post ∧
        ∀ ip ∈ pre, firewallIps.contains ip = false := by
  constructor
  · simp [firstFirewall, List.find?_eq_none]
  · intro s hs
    rw [firstFirewall, List.find?_eq_some] at hs
    obtain ⟨hp, pre, post, heq, hpre⟩ := hs
    exact ⟨hp, pre, post, heq, by simpa using hpre⟩

/-- **C8 witness**: the classifier applied to a concrete answer list whose
second entry is the first sentinel. -/
theorem C8_witness :
    firewallIps.contains "10.10.34.35" = true ∧
    ∃ pre post, ["5.5.5.5", "10.10.34.35", "10.10.34.34"] = pre ++ "10.10.34.35" :: post ∧
      ∀ ip ∈ pre, firewallIps.contains ip = false :=
  (C8_classifier_first_match ["5.5.5.5", "10.10.34.35", "10.10.34.34"]).2
    "10.10.34.35" (by decide)

/-- **C3.** Whenever the returned answer set intersects the sentinel set,
the probe outcome is the firewall-blocked variant carrying the first
matching sentinel (in resolver order) — never the `ok` success return —
regardless of `include_firewall`. -/
theorem C3_sentinel_answer_never_success (server domain : String)
    (timeout t : ℚ) (io : Bool) (ips : List String)
    (hvalid : inetAtonOk server = true) (hfw : firewallFound ips = true) :
    ∃ s, firstFirewall ips = some s ∧
      (test_single_server server domain timeout io (.answers ips) t).outcome =
        (if io then Outcome.firewallIncluded s else Outcome.firewallFiltered s) ∧
      ∀ ip, (test_single_server server domain timeout io (.answers ips) t).outcome ≠
        Outcome.okSuccess ip := by
  cases ips with
  | nil => simp [firewallFound] at hfw
  | cons a rest =>
    obtain ⟨s, hs⟩ : ∃ s, firstFirewall (a :: rest) = some s := by
      have hsome : (firstFirewall (a :: rest)).isSome := by
        rw [firstFirewall, List.find?_isSome]
        simpa [firewallFound, List.any_eq_true] using hfw
      exact Option.isSome_iff_exists.mp hsome
    refine ⟨s, hs, ?_, ?_⟩
    · cases io <;> simp [test_single_server, hvalid, hfw, hs]
    · cases io <;> simp [test_single_server, hvalid, hfw, hs]

/-- **C3 witness**: a concrete sentinel-bearing answer set. -/
theorem C3_witness :
    ∃ s, firstFirewall ["10.10.34.34"] = some s ∧
      (test_single_server "1.1.1.1" "example.com" 3 true
        (.answers ["10.10.34.34"]) 5).outcome =
        (if true then Outcome.firewallIncluded s else Outcome.firewallFiltered s) ∧
      ∀ ip, (test_single_server "1.1.1.1" "example.com" 3 true
        (.answers ["10.10.34.34"]) 5).outcome ≠ Outcome.okSuccess ip :=
  C3_sentinel_answer_never_success "1.1.1.1" "example.com" 3 5 true
    ["10.10.34.34"] (by decide) (by decide)

/-- **C4.** With `include_firewall = false` a firewall-blocked probe passes
nothing to `real_time_save`, returns `success = False`, and the engine counts
its address as failed; with `include_firewall = true` it passes exactly one
record carrying the firewall tag, returns `success = True`, and the engine
counts it as working. -/
theorem C4_firewall_persistence_and_counting (server domain : String)
    (timeout t : ℚ) (ips : List String)
    (hvalid : inetAtonOk server = true) (hfw : firewallFound ips = true) :
    ((test_single_server server domain timeout false (.answers ips) t).records = [] ∧
     (test_single_server server domain timeout false (.answers ips) t).success = false ∧
     collectResults [probeEvent server domain timeout false (.answers ips) t] =
       ([], [server])) ∧
    ∃ fw, firstFirewall ips = some fw ∧
      (test_single_server server domain timeout true (.answers ips) t).records =
        [{ server := server, firewallTag := some fw, ms := t }] ∧
      (test_single_server server domain timeout true (.answers ips) t).success = true ∧
      collectResults [probeEvent server domain timeout true (.answers ips) t] =
        ([(server, some t)], []) := by
  cases ips with
  | nil => simp [firewallFound] at hfw
  | cons a rest =>
    obtain ⟨fw, hfw'⟩ : ∃ s, firstFirewall (a :: rest) = some s := by
      have hsome : (firstFirewall (a :: rest)).isSome := by
        rw [firstFirewall, List.find?_isSome]
        simpa [firewallFound, List.any_eq_true] using hfw
      exact Option.isSome_iff_exists.mp hsome
    constructor
    · refine ⟨?_, ?_, ?_⟩ <;>
        simp [test_single_server, hvalid, hfw, hfw', collectResults,
          collectStep, probeEvent]
    · refine ⟨fw, hfw', ?_, ?_, ?_⟩ <;>
        simp [test_single_server, hvalid, hfw, hfw', collectResults,
          collectStep, probeEvent]

/-- **C4 witness**: a concrete firewall-blocked probe under both modes. -/
theorem C4_witness :
    ((test_single_server "1.1.1.1" "example.com" 3 false
        (.answers ["10.10.34.34"]) 5).records = [] ∧
     (test_single_server "1.1.1.1" "example.com" 3 false
        (.answers ["10.10.34.34"]) 5).success = false ∧
     collectResults [probeEvent "1.1.1.1" "example.com" 3 false
        (.answers ["10.10.34.34"]) 5] = ([], ["1.1.1.1"])) ∧
    ∃ fw, firstFirewall ["10.10.34.34"] = some fw ∧
      (test_single_server "1.1.1.1" "example.com" 3 true
        (.answers ["10.10.34.34"]) 5).records =
        [{ server := "1.1.1.1", firewallTag := some fw, ms := 5 }] ∧
      (test_single_server "1.1.1.1" "example.com" 3 true
        (.answers ["10.10.34.34"]) 5).success = true ∧
      collectResults [probeEvent "1.1.1.1" "example.com" 3 true
        (.answers ["10.10.34.34"]) 5] = ([("1.1.1.1", some 5)], []) :=
  C4_firewall_persistence_and_counting "1.1.1.1" "example.com" 3 5
    ["10.10.34.34"] (by decide) (by decide)

/-- **C5 counterexample**: `"127.1"` is not a well-formed dotted-quad, yet
`socket.inet_aton` accepts it, so the probe does reach the network layer and
the outcome is not `InvalidAddress` — the claim "every malformed address
string yields InvalidAddress with no network call" is false as stated. -/
theorem C5_counterexample :
    specDottedQuad "127.1" = false ∧
    (test_single_server "127.1" "example.com" 3 false .timeout 7).queried = true ∧
    (test_single_server "127.1" "example.com" 3 false .timeout 7).outcome ≠
      Outcome.invalidIp := by
  decide

/-- **C5 amended.** Every address string *rejected by `inet_aton`* yields
`InvalidAddress`, with no latency and no network call; every accepted
address — and `inet_aton` accepts strictly more than dotted-quads — does
reach the network layer. -/
theorem C5_amended_inet_aton_gate (server domain : String) (timeout t : ℚ)
    (io : Bool) (resp : DnsResponse) (h : inetAtonOk server = false) :
    ((test_single_server server domain timeout io resp t).outcome = .invalidIp ∧
     (test_single_server server domain timeout io resp t).queried = false ∧
     (test_single_server server domain timeout io resp t).latency = none) ∧
    ∀ s', inetAtonOk s' = true →
      (test_single_server s' domain timeout io resp t).queried = true := by
  constructor
  · simp [test_single_server, h]
  · intro s' h'
    cases resp with
    | answers ips =>
      cases ips with
      | nil => simp [test_single_server, h']
      | cons a rest =>
        by_cases hf : firewallFound (a :: rest) = true
        · cases io <;> simp [test_single_server, h', hf]
        · simp [test_single_server, h', hf]
    | nxdomain => simp [test_single_server, h']
    | timeout => simp [test_single_server, h']
    | noAnswer => simp [test_single_server, h']
    | dnsError => simp [test_single_server, h']
    | otherError => simp [test_single_server, h']

/-- **C5 witness**: the amended theorem applied at `"abc"` (rejected) and,
through its second conjunct, at `"127.1"` (accepted non-dotted-quad). -/
theorem C5_witness :
    (test_single_server "abc" "example.com" 3 false .timeout 7).outcome =
      Outcome.invalidIp ∧
    (test_single_server "127.1" "example.com" 3 false .timeout 7).queried = true :=
  ⟨(C5_amended_inet_aton_gate "abc" "example.com" 3 7 false .timeout
      (by decide)).1.1,
   (C5_amended_inet_aton_gate "abc" "example.com" 3 7 false .timeout
      (by decide)).2 "127.1" (by decide)⟩

/-- **C9.** Each completion event appends to exactly one of `working` and
`failed` (a successful result to `working`, a failed result or a crashed
future to `failed`), so when `as_completed` has delivered one event per
submitted server the two lists partition the run:
`|servers| = |working| + |failed|`. -/
theorem C9_partition_working_failed (servers : List String)
    (events : List (String × TaskResult))
    (h : List.Perm (events.map Prod.fst) servers) :
    (collectResults events).1.length + (collectResults events).2.length =
      servers.length := by
  have hlen : events.length = servers.length := by
    simpa using h.length_eq
  rw [collectResults, collectResults_foldl_length]
  simpa using hlen

/-- **C9 witness**: two servers, one success and one crashed future,
delivered out of submission order. -/
theorem C9_witness :
    (collectResults [("8.8.8.8", .ok true ("8.8.8.8", some 5)),
       ("1.1.1.1", .crash)]).1.length +
    (collectResults [("8.8.8.8", .ok true ("8.8.8.8", some 5)),
       ("1.1.1.1", .crash)]).2.length = 2 :=
  C9_partition_working_failed ["1.1.1.1", "8.8.8.8"]
    [("8.8.8.8", .ok true ("8.8.8.8", some 5)), ("1.1.1.1", .crash)]
    (by decide)

/-- **C10.** A failing store write is swallowed inside `real_time_save`
(the function still returns, leaving the store unchanged; a succeeding
write appends exactly the record), and a firewall-accepted probe whose
record the sink dropped still returns `success = True` and is still counted
as working by the engine — its record is simply absent from the store. -/
theorem C10_sink_failure_swallowed (store : List ResultRecord)
    (r : ResultRecord) (server domain : String) (timeout t : ℚ)
    (ips : List String)
    (hvalid : inetAtonOk server = true) (hfw : firewallFound ips = true) :
    real_time_save true store r = store ∧
    real_time_save false store r = store ++ [r] ∧
    (test_single_server server domain timeout true (.answers ips) t).success =
      true ∧
    runStore true store
      (test_single_server server domain timeout true (.answers ips) t).records =
      store ∧
    collectResults [probeEvent server domain timeout true (.answers ips) t] =
      ([(server, some t)], []) := by
  cases ips with
  | nil => simp [firewallFound] at hfw
  | cons a rest =>
    refine ⟨rfl, rfl, ?_, ?_, ?_⟩ <;>
      simp [test_single_server, hvalid, hfw, runStore, real_time_save,
        collectResults, collectStep, probeEvent]

/-- **C10 witness**: a concrete firewall-accepted probe against a sink whose
write fails. -/
theorem C10_witness :
    real_time_save true [] { server := "x", firewallTag := none, ms := 1 } = [] ∧
    real_time_save false [] { server := "x", firewallTag := none, ms := 1 } =
      [] ++ [{ server := "x", firewallTag := none, ms := 1 }] ∧
    (test_single_server "1.1.1.1" "example.com" 3 true
      (.answers ["10.10.34.34"]) 5).success = true ∧
    runStore true []
      (test_single_server "1.1.1.1" "example.com" 3 true
        (.answers ["10.10.34.34"]) 5).records = [] ∧
    collectResults [probeEvent "1.1.1.1" "example.com" 3 true
      (.answers ["10.10.34.34"]) 5] = ([("1.1.1.1", some 5)], []) :=
  C10_sink_failure_swallowed [] { server := "x", firewallTag := none, ms := 1 }
    "1.1.1.1" "example.com" 3 5 ["10.10.34.34"] (by decide) (by decide)

/-- **C1** (the code evaluated at the claim's scenario): a probe whose query
returns a non-empty answer set containing no sentinel never produces the
`"ok"` success return — line 213 reads `first_fw`, assigned only inside the
firewall branch, so the interpreter faults and the blanket handler returns a
generic failure with nothing passed to the sink.  In end-to-end scenario 1
(`servers = [1.1.1.1, 8.8.8.8]`, both resolving `example.com` normally,
`include_firewall = false`) both probes therefore come back failed: 0
successes, 0 persisted records, `working = []`, instead of the claimed
2 successes, 2 records and 100% rate. -/
theorem C1_normal_success_returns_generic_error :
    (test_single_server "1.1.1.1" "example.com" 3 false
      (.answers ["93.184.216.34"]) 12).outcome = Outcome.error ∧
    (test_single_server "1.1.1.1" "example.com" 3 false
      (.answers ["93.184.216.34"]) 12).success = false ∧
    (test_single_server "1.1.1.1" "example.com" 3 false
      (.answers ["93.184.216.34"]) 12).records = [] ∧
    (test_single_server "8.8.8.8" "example.com" 3 false
      (.answers ["93.184.216.34"]) 15).outcome = Outcome.error ∧
    (test_single_server "8.8.8.8" "example.com" 3 false
      (.answers ["93.184.216.34"]) 15).records = [] ∧
    collectResults
      [probeEvent "1.1.1.1" "example.com" 3 false (.answers ["93.184.216.34"]) 12,
       probeEvent "8.8.8.8" "example.com" 3 false (.answers ["93.184.216.34"]) 15] =
      ([], ["1.1.1.1", "8.8.8.8"]) := by
  decide

/-- **C6 counterexample**: with input order `[1.1.1.1, 8.8.8.8]` but the
`8.8.8.8` probe completing first, both working at the same latency 5 ms,
the top-5 list puts `8.8.8.8` first — the tie is broken by completion
order, not by the claimed original input ordering, which would have put
`1.1.1.1` first. -/
theorem C6_counterexample :
    topFive (collectResults
      [probeEvent "8.8.8.8" "example.com" 3 true (.answers ["10.10.34.34"]) 5,
       probeEvent "1.1.1.1" "example.com" 3 true (.answers ["10.10.34.34"]) 5]).1 =
      [("8.8.8.8", some 5), ("1.1.1.1", some 5)] ∧
    topFive (collectResults
      [probeEvent "8.8.8.8" "example.com" 3 true (.answers ["10.10.34.34"]) 5,
       probeEvent "1.1.1.1" "example.com" 3 true (.answers ["10.10.34.34"]) 5]).1 ≠
      [("1.1.1.1", some 5), ("8.8.8.8", some 5)] := by
  have hw : (collectResults
      [probeEvent "8.8.8.8" "example.com" 3 true (.answers ["10.10.34.34"]) 5,
       probeEvent "1.1.1.1" "example.com" 3 true (.answers ["10.10.34.34"]) 5]).1 =
      [("8.8.8.8", some (5:ℚ)), ("1.1.1.1", some 5)] := by decide
  have hsort : ([("8.8.8.8", some (5:ℚ)), ("1.1.1.1", some 5)] :
      List (String × Option ℚ)).mergeSort latencyLE =
      [("8.8.8.8", some 5), ("1.1.1.1", some 5)] :=
    List.mergeSort_of_sorted (by decide)
  constructor
  · rw [hw, topFive, hsort]
    decide
  · rw [hw, topFive, hsort]
    decide

/-- **C6 amended.** The top-5 list is sorted ascending by latency and has at
most 5 entries even when fewer than 5 probes worked; equal-latency entries
keep the relative order of the `working` list — the order probes completed
(Python's sort is stable) — which need not be the original input ordering. -/
theorem C6_amended_topfive_sorted_stable (working : List (String × Option ℚ)) :
    List.Pairwise (fun a b => latencyLE a b = true) (topFive working) ∧
    (topFive working).length ≤ 5 ∧
    ∀ a b, [a, b].Sublist working → latencyLE a b = true →
      [a, b].Sublist (working.mergeSort latencyLE) := by
  refine ⟨?_, ?_, ?_⟩
  · have hs : (working.mergeSort latencyLE).Pairwise
        (fun a b => latencyLE a b = true) :=
      List.sorted_mergeSort latencyLE_trans latencyLE_total working
    exact hs.sublist (List.take_sublist _ _)
  · simp only [topFive, List.length_take]
    exact Nat.min_le_left _ _
  · intro a b hsub hab
    exact List.pair_sublist_mergeSort latencyLE_trans latencyLE_total hab hsub

/-- **C6 witness**: the amended theorem applied to a concrete two-entry
working list with a latency tie. -/
theorem C6_witness :
    [(("1.1.1.1" : String), some (3:ℚ)), ("8.8.8.8", some 3)].Sublist
      ([(("1.1.1.1" : String), some (3:ℚ)), ("8.8.8.8", some 3)].mergeSort
        latencyLE) :=
  (C6_amended_topfive_sorted_stable
      [("1.1.1.1", some 3), ("8.8.8.8", some 3)]).2.2
    ("1.1.1.1", some 3) ("8.8.8.8", some 3) (List.Sublist.refl _) (by decide)
